import Mathlib

/-! # docker.InfoService

A shallow embedding of `docker/docker.go`.  The two methods of `InfoService`
talk to a Docker engine through the client library; here the engine is a record
of the answers the library hands back, and every method returns, besides its Go
result pair, the list of library calls it made, in order.

Modelling decisions:

* Go `map[string]string` is `GoMap`, an association list that holds each key at
  most once; `GoMap.set` is Go's `m[k] = v`, `GoMap.get` is the lookup and
  `GoMap.len` is `len(m)`.  A `nil` map is `none : Option GoMap`.
* a Go `error` is `Option GoError`, `none` being `nil`.
* `containerInspect.NetworkSettings.Networks` is a Go map, ranged over in an
  order the runtime picks.  It is given as the list of its entries in the order
  in which the `range` loop visits them.  The pointers of the inspection
  response are taken to point at a value.
* the constants of package `agent` are not part of this source file; they are
  the fields of `Agent`, a parameter of both methods.
-/

namespace docker

/-- A Go `error` value that is not `nil`, carrying its message. -/
structure GoError where
  msg : String
  deriving DecidableEq, Repr

/-- Go `map[string]string`: entries, each key occurring at most once. -/
abbrev GoMap := List (String × String)

namespace GoMap

/-- The result of `make(map[string]string)`. -/
def make : GoMap := []

/-- Go `m[k] = v`: overwrite the entry of `k` when there is one, add it otherwise. -/
def set : GoMap → String → String → GoMap
  | [], k, v => [(k, v)]
  | (k', v') :: m, k, v => if k' = k then (k, v) :: m else (k', v') :: set m k v

/-- Go `v, ok := m[k]`. -/
def get : GoMap → String → Option String
  | [], _ => none
  | (k', v') :: m, k => if k' = k then some v' else get m k

/-- Go `len(m)`. -/
def len (m : GoMap) : Nat := m.length

end GoMap

/-- The constants of package `agent` that `docker.go` refers to. -/
structure Agent where
  SupportedDockerAPIVersion : String
  MemberTagKeyNodeName : String
  MemberTagEngineStatus : String
  MemberTagKeyNodeRole : String
  NodeRoleManager : String
  NodeRoleWorker : String
  deriving DecidableEq, Repr

/-- The three tag keys are pairwise distinct. -/
def Agent.DistinctKeys (agent : Agent) : Prop :=
  agent.MemberTagKeyNodeName ≠ agent.MemberTagEngineStatus ∧
  agent.MemberTagKeyNodeName ≠ agent.MemberTagKeyNodeRole ∧
  agent.MemberTagEngineStatus ≠ agent.MemberTagKeyNodeRole

instance (agent : Agent) : Decidable agent.DistinctKeys := by
  unfold Agent.DistinctKeys; infer_instance

/-- Modelled from the spec: the values of the `agent` constants, which live in
package `github.com/portainer/agent` and not in this source file; the spec names
the keys `node-name`, `engine-status`, `node-role` and the roles `manager` and
`worker`.  The API version is not stated anywhere and is a placeholder. -/
def specAgent : Agent where
  SupportedDockerAPIVersion := "1.24"
  MemberTagKeyNodeName := "node-name"
  MemberTagEngineStatus := "engine-status"
  MemberTagKeyNodeRole := "node-role"
  NodeRoleManager := "manager"
  NodeRoleWorker := "worker"

/-- The `Swarm` field of `types.Info`, as far as `docker.go` reads it. -/
structure SwarmInfo where
  NodeID : String
  ControlAvailable : Bool
  deriving DecidableEq, Repr

/-- The daemon-info response `types.Info`, as far as `docker.go` reads it. -/
structure Info where
  Name : String
  Swarm : SwarmInfo
  deriving DecidableEq, Repr

/-- One network attachment, `network.EndpointSettings`. -/
structure EndpointSettings where
  IPAddress : String
  deriving DecidableEq, Repr

/-- The `NetworkSettings` of an inspected container: the entries of the
`Networks` map in the order in which a `range` loop visits them. -/
structure NetworkSettings where
  Networks : List (String × EndpointSettings)
  deriving DecidableEq, Repr

/-- The container-inspection response `types.ContainerJSON`. -/
structure ContainerJSON where
  NetworkSettings : NetworkSettings
  deriving DecidableEq, Repr

/-- The Docker engine as the client library shows it: what each library call
hands back.  `NewClientWithOpts` is the `err` of client creation; the two
queries give their value together with their `err`. -/
structure Engine where
  NewClientWithOpts : Option GoError
  Info : Info × Option GoError
  ContainerInspect : String → ContainerJSON × Option GoError

/-- A call that leaves the method: to the client library or to the logger. -/
inductive Call where
  | NewClientWithOpts (version : String)
  | Info
  | ContainerInspect (containerName : String)
  | Close
  | Printf (networkCount : Nat) (ipAddress : String)
  deriving DecidableEq, Repr

/-- What a method returns: the Go result pair and the calls made, in order. -/
structure Outcome (α : Type) where
  value : α
  err : Option GoError
  calls : List Call
  deriving DecidableEq, Repr

/-- The number of client-creation attempts among some calls. -/
def countNewClient (calls : List Call) : Nat :=
  (calls.filter fun c => match c with
    | Call.NewClientWithOpts _ => true
    | _ => false).length

/-- The number of engine queries (`Info` or `ContainerInspect`) among some calls. -/
def countQueries (calls : List Call) : Nat :=
  (calls.filter fun c => match c with
    | Call.Info => true
    | Call.ContainerInspect _ => true
    | _ => false).length

/-- The message of the error `GetContainerIpFromDockerEngine` makes when no
attachment has an address. -/
def noAddressError : GoError :=
  ⟨"unable to retrieve the address on which the agent can advertise. Check your network settings"⟩

namespace InfoService

/-- Lines 29-40 of `docker.go`: the map built from a daemon-info response. -/
def buildInfo (agent : Agent) (dockerInfo : Info) : GoMap :=
  let info := GoMap.make
  let info := info.set agent.MemberTagKeyNodeName dockerInfo.Name
  if dockerInfo.Swarm.NodeID = "" then
    info.set agent.MemberTagEngineStatus "standalone"
  else
    let info := info.set agent.MemberTagEngineStatus "swarm"
    let info := info.set agent.MemberTagKeyNodeRole agent.NodeRoleWorker
    if dockerInfo.Swarm.ControlAvailable then
      info.set agent.MemberTagKeyNodeRole agent.NodeRoleManager
    else
      info

/-- Method `GetInformationFromDockerEngine`, lines 17-43 of `docker.go`. -/
def GetInformationFromDockerEngine (agent : Agent) (engine : Engine) :
    Outcome (Option GoMap) :=
  let calls := [Call.NewClientWithOpts agent.SupportedDockerAPIVersion]
  match engine.NewClientWithOpts with
  | some err => ⟨none, some err, calls⟩
  | none =>
    -- `defer cli.Close()`: runs last on every path below
    let calls := calls ++ [Call.Info]
    match engine.Info with
    | (_, some err) => ⟨none, some err, calls ++ [Call.Close]⟩
    | (dockerInfo, none) => ⟨some (buildInfo agent dockerInfo), none, calls ++ [Call.Close]⟩

/-- The `range` loop of lines 61-66 over the attachments still to visit:
`some` of the returned address and the log call when the loop returns, `none`
when it runs to its end.  `networkCount` is `len(...Networks)`. -/
def rangeNetworks (networkCount : Nat) :
    List (String × EndpointSettings) → Option (String × Call)
  | [] => none
  | (_, network) :: rest =>
    if network.IPAddress ≠ "" then
      some (network.IPAddress, Call.Printf networkCount network.IPAddress)
    else
      rangeNetworks networkCount rest

/-- Method `GetContainerIpFromDockerEngine`, lines 49-69 of `docker.go`. -/
def GetContainerIpFromDockerEngine (agent : Agent) (engine : Engine)
    (containerName : String) : Outcome String :=
  let calls := [Call.NewClientWithOpts agent.SupportedDockerAPIVersion]
  match engine.NewClientWithOpts with
  | some err => ⟨"", some err, calls⟩
  | none =>
    -- `defer cli.Close()`: runs last on every path below
    let calls := calls ++ [Call.ContainerInspect containerName]
    match engine.ContainerInspect containerName with
    | (_, some err) => ⟨"", some err, calls ++ [Call.Close]⟩
    | (containerInspect, none) =>
      let networks := containerInspect.NetworkSettings.Networks
      match rangeNetworks networks.length networks with
      | some (ipAddress, logCall) => ⟨ipAddress, none, calls ++ [logCall, Call.Close]⟩
      | none => ⟨"", some noAddressError, calls ++ [Call.Close]⟩

end InfoService

/-! ## Engines used in the statements -/

/-- An engine on which client creation and the info query succeed, answering
`dockerInfo`. -/
def infoEngine (dockerInfo : Info) : Engine where
  NewClientWithOpts := none
  Info := (dockerInfo, none)
  ContainerInspect := fun _ => (⟨⟨[]⟩⟩, some ⟨"No such container"⟩)

/-- An engine on which client creation and every inspection succeed, the
inspected container having the attachments `networks`, in iteration order. -/
def inspectEngine (networks : List (String × EndpointSettings)) : Engine where
  NewClientWithOpts := none
  Info := (⟨"", ⟨"", false⟩⟩, some ⟨"info failed"⟩)
  ContainerInspect := fun _ => (⟨⟨networks⟩⟩, none)

/-- An engine on which client creation fails with `err`. -/
def unreachableEngine (err : GoError) : Engine where
  NewClientWithOpts := some err
  Info := (⟨"", ⟨"", false⟩⟩, none)
  ContainerInspect := fun _ => (⟨⟨[]⟩⟩, none)

/-! ## Lookup after assignment -/

theorem GoMap.get_set_same (m : GoMap) (k v : String) : (m.set k v).get k = some v := by
  induction m with
  | nil => simp [GoMap.set, GoMap.get]
  | cons e m ih =>
    obtain ⟨k', v'⟩ := e
    by_cases h : k' = k
    · simp [GoMap.set, GoMap.get, h]
    · simp [GoMap.set, GoMap.get, h, ih]

theorem GoMap.get_set_other (m : GoMap) (k v j : String) (hne : k ≠ j) :
    (m.set k v).get j = m.get j := by
  induction m with
  | nil => simp [GoMap.set, GoMap.get, hne]
  | cons e m ih =>
    obtain ⟨k', v'⟩ := e
    by_cases h : k' = k
    · subst h
      simp [GoMap.set, GoMap.get, hne]
    · by_cases hj : k' = j
      · subst hj
        simp [GoMap.set, GoMap.get, h]
      · simp [GoMap.set, GoMap.get, h, hj, ih]

theorem InfoService.GetInformationFromDockerEngine_ok (agent : Agent) (engine : Engine)
    (dockerInfo : Info) (hcli : engine.NewClientWithOpts = none)
    (hinfo : engine.Info = (dockerInfo, none)) :
    InfoService.GetInformationFromDockerEngine agent engine =
      ⟨some (InfoService.buildInfo agent dockerInfo), none,
        [Call.NewClientWithOpts agent.SupportedDockerAPIVersion, Call.Info, Call.Close]⟩ := by
  simp [InfoService.GetInformationFromDockerEngine, hcli, hinfo]

theorem GoMap.keys_set (m : GoMap) (k v j : String) :
    j ∈ (m.set k v).map Prod.fst ↔ j = k ∨ j ∈ m.map Prod.fst := by
  induction m with
  | nil => simp [GoMap.set]
  | cons e m ih =>
    obtain ⟨k', v'⟩ := e
    by_cases h : k' = k
    · subst h
      simp [GoMap.set]
    · simp only [GoMap.set, h, if_false, List.map_cons, List.mem_cons, ih]
      tauto

theorem GoMap.nodup_set (m : GoMap) (k v : String) (hm : (m.map Prod.fst).Nodup) :
    ((m.set k v).map Prod.fst).Nodup := by
  induction m with
  | nil => simp [GoMap.set]
  | cons e m ih =>
    obtain ⟨k', v'⟩ := e
    simp only [List.map_cons, List.nodup_cons] at hm
    by_cases h : k' = k
    · subst h
      simpa [GoMap.set] using hm
    · simp only [GoMap.set, h, if_false, List.map_cons, List.nodup_cons]
      refine ⟨?_, ih hm.2⟩
      intro hmem
      rcases (GoMap.keys_set m k v k').1 hmem with hk | hk
      · exact h hk
      · exact hm.1 hk

theorem GoMap.get_ne_none_of_mem_keys (m : GoMap) (k : String)
    (hmem : k ∈ m.map Prod.fst) : m.get k ≠ none := by
  induction m with
  | nil => simp at hmem
  | cons e m ih =>
    obtain ⟨k', v'⟩ := e
    by_cases h : k' = k
    · simp [GoMap.get, h]
    · simp only [List.map_cons, List.mem_cons] at hmem
      rcases hmem with hk | hk
      · exact absurd hk.symm h
      · simpa [GoMap.get, h] using ih hk

theorem InfoService.buildInfo_nodup (agent : Agent) (dockerInfo : Info) :
    ((InfoService.buildInfo agent dockerInfo).map Prod.fst).Nodup := by
  unfold InfoService.buildInfo
  have h0 : ((GoMap.make).map Prod.fst).Nodup := by simp [GoMap.make]
  simp only []
  split
  · exact GoMap.nodup_set _ _ _ (GoMap.nodup_set _ _ _ h0)
  · split
    · exact GoMap.nodup_set _ _ _ (GoMap.nodup_set _ _ _
        (GoMap.nodup_set _ _ _ (GoMap.nodup_set _ _ _ h0)))
    · exact GoMap.nodup_set _ _ _ (GoMap.nodup_set _ _ _ (GoMap.nodup_set _ _ _ h0))

theorem InfoService.buildInfo_standalone (agent : Agent) (dockerInfo : Info)
    (hkeys : agent.DistinctKeys) (hnode : dockerInfo.Swarm.NodeID = "") :
    InfoService.buildInfo agent dockerInfo =
      [(agent.MemberTagKeyNodeName, dockerInfo.Name),
       (agent.MemberTagEngineStatus, "standalone")] := by
  obtain ⟨h12, _, _⟩ := hkeys
  simp [InfoService.buildInfo, GoMap.make, GoMap.set, hnode, h12]

theorem InfoService.buildInfo_swarm (agent : Agent) (dockerInfo : Info)
    (hkeys : agent.DistinctKeys) (hnode : dockerInfo.Swarm.NodeID ≠ "") :
    InfoService.buildInfo agent dockerInfo =
      [(agent.MemberTagKeyNodeName, dockerInfo.Name),
       (agent.MemberTagEngineStatus, "swarm"),
       (agent.MemberTagKeyNodeRole,
         if dockerInfo.Swarm.ControlAvailable then agent.NodeRoleManager
         else agent.NodeRoleWorker)] := by
  obtain ⟨h12, h13, h23⟩ := hkeys
  cases hctl : dockerInfo.Swarm.ControlAvailable <;>
    simp [InfoService.buildInfo, GoMap.make, GoMap.set, hnode, h12, h13, h23, hctl]

theorem InfoService.buildInfo_get_name (agent : Agent) (dockerInfo : Info) :
    (InfoService.buildInfo agent dockerInfo).get agent.MemberTagKeyNodeName ≠ none := by
  have hmem : agent.MemberTagKeyNodeName ∈
      (InfoService.buildInfo agent dockerInfo).map Prod.fst := by
    unfold InfoService.buildInfo
    simp only []
    split
    · simp only [GoMap.keys_set, true_or, or_true]
    · split <;> simp only [GoMap.keys_set, true_or, or_true]
  exact GoMap.get_ne_none_of_mem_keys _ _ hmem

theorem InfoService.buildInfo_get_status (agent : Agent) (dockerInfo : Info) :
    (InfoService.buildInfo agent dockerInfo).get agent.MemberTagEngineStatus ≠ none := by
  have hmem : agent.MemberTagEngineStatus ∈
      (InfoService.buildInfo agent dockerInfo).map Prod.fst := by
    unfold InfoService.buildInfo
    simp only []
    split
    · simp only [GoMap.keys_set, true_or, or_true]
    · split <;> simp only [GoMap.keys_set, true_or, or_true]
  exact GoMap.get_ne_none_of_mem_keys _ _ hmem

theorem InfoService.buildInfo_get_role (agent : Agent) (dockerInfo : Info)
    (hnode : dockerInfo.Swarm.NodeID ≠ "") :
    (InfoService.buildInfo agent dockerInfo).get agent.MemberTagKeyNodeRole ≠ none := by
  have hmem : agent.MemberTagKeyNodeRole ∈
      (InfoService.buildInfo agent dockerInfo).map Prod.fst := by
    unfold InfoService.buildInfo
    simp only [hnode, if_false]
    split <;> simp only [GoMap.keys_set, true_or, or_true]
  exact GoMap.get_ne_none_of_mem_keys _ _ hmem

/-! ## The loop over the network attachments -/

theorem InfoService.rangeNetworks_eq_none_iff (networkCount : Nat)
    (networks : List (String × EndpointSettings)) :
    InfoService.rangeNetworks networkCount networks = none ↔
      ∀ n ∈ networks, n.2.IPAddress = "" := by
  induction networks with
  | nil => simp [InfoService.rangeNetworks]
  | cons n rest ih =>
    obtain ⟨name, network⟩ := n
    by_cases h : network.IPAddress = ""
    · simp [InfoService.rangeNetworks, h, ih]
    · simp [InfoService.rangeNetworks, h]

theorem InfoService.rangeNetworks_skip (networkCount : Nat)
    (pre rest : List (String × EndpointSettings))
    (hpre : ∀ m ∈ pre, m.2.IPAddress = "") :
    InfoService.rangeNetworks networkCount (pre ++ rest) =
      InfoService.rangeNetworks networkCount rest := by
  induction pre with
  | nil => rfl
  | cons m pre ih =>
    obtain ⟨name, network⟩ := m
    have hm : network.IPAddress = "" := hpre (name, network) (List.mem_cons_self _ _)
    have hrest : ∀ m ∈ pre, m.2.IPAddress = "" :=
      fun m hmem => hpre m (List.mem_cons_of_mem _ hmem)
    simp [InfoService.rangeNetworks, hm, ih hrest]

theorem InfoService.rangeNetworks_first (networkCount : Nat)
    (pre post : List (String × EndpointSettings)) (n : String × EndpointSettings)
    (hpre : ∀ m ∈ pre, m.2.IPAddress = "") (hn : n.2.IPAddress ≠ "") :
    InfoService.rangeNetworks networkCount (pre ++ n :: post) =
      some (n.2.IPAddress, Call.Printf networkCount n.2.IPAddress) := by
  rw [InfoService.rangeNetworks_skip networkCount pre (n :: post) hpre]
  obtain ⟨name, network⟩ := n
  simp only [] at hn
  simp [InfoService.rangeNetworks, hn]

theorem InfoService.rangeNetworks_some (networkCount : Nat)
    (networks : List (String × EndpointSettings)) (ipAddress : String) (logCall : Call)
    (hloop : InfoService.rangeNetworks networkCount networks = some (ipAddress, logCall)) :
    ipAddress ≠ "" ∧ logCall = Call.Printf networkCount ipAddress := by
  induction networks with
  | nil => simp [InfoService.rangeNetworks] at hloop
  | cons n rest ih =>
    obtain ⟨name, network⟩ := n
    by_cases h : network.IPAddress = ""
    · simp only [InfoService.rangeNetworks, h, ne_eq, not_true_eq_false, if_false] at hloop
      exact ih hloop
    · simp only [InfoService.rangeNetworks, ne_eq, h, not_false_eq_true, if_true,
        Option.some.injEq, Prod.mk.injEq] at hloop
      obtain ⟨hip, hcall⟩ := hloop
      subst hip
      exact ⟨h, hcall.symm⟩

theorem first_nonempty_split (networks : List (String × EndpointSettings))
    (hex : ∃ n ∈ networks, n.2.IPAddress ≠ "") :
    ∃ pre n post, networks = pre ++ n :: post ∧
      (∀ m ∈ pre, m.2.IPAddress = "") ∧ n.2.IPAddress ≠ "" := by
  induction networks with
  | nil => simp at hex
  | cons a rest ih =>
    by_cases ha : a.2.IPAddress = ""
    · have hrest : ∃ n ∈ rest, n.2.IPAddress ≠ "" := by
        obtain ⟨n, hmem, hn⟩ := hex
        rcases List.mem_cons.1 hmem with h | h
        · exact absurd (h ▸ ha) hn
        · exact ⟨n, h, hn⟩
      obtain ⟨pre, n, post, hsplit, hpre, hn⟩ := ih hrest
      refine ⟨a :: pre, n, post, by simp [hsplit], ?_, hn⟩
      intro m hm
      rcases List.mem_cons.1 hm with h | h
      · exact h ▸ ha
      · exact hpre m h
    · exact ⟨[], a, rest, rfl, by simp, ha⟩

theorem InfoService.GetContainerIpFromDockerEngine_ok (agent : Agent) (engine : Engine)
    (containerName : String) (containerInspect : ContainerJSON)
    (hcli : engine.NewClientWithOpts = none)
    (hinspect : engine.ContainerInspect containerName = (containerInspect, none)) :
    InfoService.GetContainerIpFromDockerEngine agent engine containerName =
      match InfoService.rangeNetworks containerInspect.NetworkSettings.Networks.length
          containerInspect.NetworkSettings.Networks with
      | some (ipAddress, logCall) =>
        ⟨ipAddress, none,
          [Call.NewClientWithOpts agent.SupportedDockerAPIVersion,
            Call.ContainerInspect containerName, logCall, Call.Close]⟩
      | none =>
        ⟨"", some noAddressError,
          [Call.NewClientWithOpts agent.SupportedDockerAPIVersion,
            Call.ContainerInspect containerName, Call.Close]⟩ := by
  simp only [InfoService.GetContainerIpFromDockerEngine, hcli, hinspect]
  split <;> simp_all

/-! ## The map of `GetInformationFromDockerEngine` -/

/-- C1: when client creation and the info query succeed and the daemon reports
an empty `Swarm.NodeID`, the returned map gives `"standalone"` for the
engine-status key and has no entry for the node-role key, the three tag keys
being pairwise distinct. -/
theorem C1_standalone_status_without_role (agent : Agent) (engine : Engine) (dockerInfo : Info)
    (hkeys : agent.DistinctKeys)
    (hcli : engine.NewClientWithOpts = none)
    (hinfo : engine.Info = (dockerInfo, none))
    (hnode : dockerInfo.Swarm.NodeID = "") :
    ∃ info : GoMap,
      (InfoService.GetInformationFromDockerEngine agent engine).value = some info ∧
      (InfoService.GetInformationFromDockerEngine agent engine).err = none ∧
      info.get agent.MemberTagEngineStatus = some "standalone" ∧
      info.get agent.MemberTagKeyNodeRole = none := by
  obtain ⟨h12, h13, h23⟩ := hkeys
  refine ⟨InfoService.buildInfo agent dockerInfo, ?_, ?_, ?_, ?_⟩
  · rw [InfoService.GetInformationFromDockerEngine_ok agent engine dockerInfo hcli hinfo]
  · rw [InfoService.GetInformationFromDockerEngine_ok agent engine dockerInfo hcli hinfo]
  · simp only [InfoService.buildInfo, hnode, if_true]
    exact GoMap.get_set_same _ _ _
  · simp only [InfoService.buildInfo, hnode, if_true]
    rw [GoMap.get_set_other _ _ _ _ h23, GoMap.get_set_other _ _ _ _ h13]
    rfl

/-- Witness of C1: the standalone daemon `node-7` with the spec's tag names. -/
theorem C1_standalone_status_without_role_witness :
    specAgent.DistinctKeys ∧
    (infoEngine ⟨"node-7", ⟨"", false⟩⟩).NewClientWithOpts = none ∧
    ∃ info : GoMap,
      (InfoService.GetInformationFromDockerEngine specAgent
        (infoEngine ⟨"node-7", ⟨"", false⟩⟩)).value = some info ∧
      (InfoService.GetInformationFromDockerEngine specAgent
        (infoEngine ⟨"node-7", ⟨"", false⟩⟩)).err = none ∧
      info.get specAgent.MemberTagEngineStatus = some "standalone" ∧
      info.get specAgent.MemberTagKeyNodeRole = none :=
  ⟨by decide, rfl,
    C1_standalone_status_without_role specAgent (infoEngine ⟨"node-7", ⟨"", false⟩⟩)
      ⟨"node-7", ⟨"", false⟩⟩ (by decide) rfl rfl rfl⟩

/-- C2: when client creation and the info query succeed and the daemon reports a
non-empty `Swarm.NodeID`, the returned map gives `"swarm"` for the engine-status
key and, for the node-role key, the manager role when `Swarm.ControlAvailable`
is true and the worker role when it is false, the three tag keys being pairwise
distinct. -/
theorem C2_swarm_status_and_role (agent : Agent) (engine : Engine) (dockerInfo : Info)
    (hkeys : agent.DistinctKeys)
    (hcli : engine.NewClientWithOpts = none)
    (hinfo : engine.Info = (dockerInfo, none))
    (hnode : dockerInfo.Swarm.NodeID ≠ "") :
    ∃ info : GoMap,
      (InfoService.GetInformationFromDockerEngine agent engine).value = some info ∧
      (InfoService.GetInformationFromDockerEngine agent engine).err = none ∧
      info.get agent.MemberTagEngineStatus = some "swarm" ∧
      (dockerInfo.Swarm.ControlAvailable = true →
        info.get agent.MemberTagKeyNodeRole = some agent.NodeRoleManager) ∧
      (dockerInfo.Swarm.ControlAvailable = false →
        info.get agent.MemberTagKeyNodeRole = some agent.NodeRoleWorker) := by
  obtain ⟨_, _, h23⟩ := hkeys
  have h32 : agent.MemberTagKeyNodeRole ≠ agent.MemberTagEngineStatus := fun h => h23 h.symm
  refine ⟨InfoService.buildInfo agent dockerInfo, ?_, ?_, ?_, ?_, ?_⟩
  · rw [InfoService.GetInformationFromDockerEngine_ok agent engine dockerInfo hcli hinfo]
  · rw [InfoService.GetInformationFromDockerEngine_ok agent engine dockerInfo hcli hinfo]
  · simp only [InfoService.buildInfo, hnode, if_false]
    split
    · rw [GoMap.get_set_other _ _ _ _ h32, GoMap.get_set_other _ _ _ _ h32]
      exact GoMap.get_set_same _ _ _
    · rw [GoMap.get_set_other _ _ _ _ h32]
      exact GoMap.get_set_same _ _ _
  · intro hctl
    simp only [InfoService.buildInfo, hnode, if_false, hctl, if_true]
    exact GoMap.get_set_same _ _ _
  · intro hctl
    simp only [InfoService.buildInfo, hnode, if_false, hctl]
    exact GoMap.get_set_same _ _ _

/-- Witness of C2: the swarm manager `node-7` with the spec's tag names. -/
theorem C2_swarm_status_and_role_witness :
    specAgent.DistinctKeys ∧
    ∃ info : GoMap,
      (InfoService.GetInformationFromDockerEngine specAgent
        (infoEngine ⟨"node-7", ⟨"abc123", true⟩⟩)).value = some info ∧
      (InfoService.GetInformationFromDockerEngine specAgent
        (infoEngine ⟨"node-7", ⟨"abc123", true⟩⟩)).err = none ∧
      info.get specAgent.MemberTagEngineStatus = some "swarm" ∧
      (true = true → info.get specAgent.MemberTagKeyNodeRole = some specAgent.NodeRoleManager) ∧
      (true = false → info.get specAgent.MemberTagKeyNodeRole = some specAgent.NodeRoleWorker) :=
  ⟨by decide,
    C2_swarm_status_and_role specAgent (infoEngine ⟨"node-7", ⟨"abc123", true⟩⟩)
      ⟨"node-7", ⟨"abc123", true⟩⟩ (by decide) rfl rfl (by decide)⟩

/-- C5: when client creation and the info query succeed, whatever the name and
the swarm state, the returned map gives for the node-name key exactly the `Name`
the daemon reports, the three tag keys being pairwise distinct. -/
theorem C5_node_name_verbatim (agent : Agent) (engine : Engine) (dockerInfo : Info)
    (hkeys : agent.DistinctKeys)
    (hcli : engine.NewClientWithOpts = none)
    (hinfo : engine.Info = (dockerInfo, none)) :
    ∃ info : GoMap,
      (InfoService.GetInformationFromDockerEngine agent engine).value = some info ∧
      info.get agent.MemberTagKeyNodeName = some dockerInfo.Name := by
  obtain ⟨h12, h13, _⟩ := hkeys
  have h21 : agent.MemberTagEngineStatus ≠ agent.MemberTagKeyNodeName := fun h => h12 h.symm
  have h31 : agent.MemberTagKeyNodeRole ≠ agent.MemberTagKeyNodeName := fun h => h13 h.symm
  refine ⟨InfoService.buildInfo agent dockerInfo, ?_, ?_⟩
  · rw [InfoService.GetInformationFromDockerEngine_ok agent engine dockerInfo hcli hinfo]
  · unfold InfoService.buildInfo
    simp only []
    split
    · rw [GoMap.get_set_other _ _ _ _ h21]
      exact GoMap.get_set_same _ _ _
    · split
      · rw [GoMap.get_set_other _ _ _ _ h31, GoMap.get_set_other _ _ _ _ h31,
          GoMap.get_set_other _ _ _ _ h21]
        exact GoMap.get_set_same _ _ _
      · rw [GoMap.get_set_other _ _ _ _ h31, GoMap.get_set_other _ _ _ _ h21]
        exact GoMap.get_set_same _ _ _

/-- Witness of C5: a swarm worker whose daemon reports the empty name. -/
theorem C5_node_name_verbatim_witness :
    specAgent.DistinctKeys ∧
    ∃ info : GoMap,
      (InfoService.GetInformationFromDockerEngine specAgent
        (infoEngine ⟨"", ⟨"abc123", false⟩⟩)).value = some info ∧
      info.get specAgent.MemberTagKeyNodeName = some "" :=
  ⟨by decide,
    C5_node_name_verbatim specAgent (infoEngine ⟨"", ⟨"abc123", false⟩⟩)
      ⟨"", ⟨"abc123", false⟩⟩ (by decide) rfl rfl⟩

/-- C6: when client creation and the info query succeed, the returned map has no
key besides the node-name, engine-status and node-role keys.  It has exactly the
two entries node-name and engine-status when `Swarm.NodeID` is empty, and exactly
the three entries node-name, engine-status and node-role otherwise.  Its
engine-status is `"standalone"` or `"swarm"`, and its node-role, when there is
one, is the manager or the worker role.  The three tag keys are pairwise
distinct. -/
theorem C6_exact_entries (agent : Agent) (engine : Engine) (dockerInfo : Info)
    (hkeys : agent.DistinctKeys)
    (hcli : engine.NewClientWithOpts = none)
    (hinfo : engine.Info = (dockerInfo, none)) :
    ∃ info : GoMap,
      (InfoService.GetInformationFromDockerEngine agent engine).value = some info ∧
      (info.map Prod.fst).Nodup ∧
      (∀ k : String, info.get k ≠ none →
        k = agent.MemberTagKeyNodeName ∨ k = agent.MemberTagEngineStatus ∨
          k = agent.MemberTagKeyNodeRole) ∧
      (dockerInfo.Swarm.NodeID = "" →
        info.len = 2 ∧
        info.get agent.MemberTagKeyNodeName = some dockerInfo.Name ∧
        info.get agent.MemberTagEngineStatus = some "standalone" ∧
        info.get agent.MemberTagKeyNodeRole = none) ∧
      (dockerInfo.Swarm.NodeID ≠ "" →
        info.len = 3 ∧
        info.get agent.MemberTagKeyNodeName = some dockerInfo.Name ∧
        info.get agent.MemberTagEngineStatus = some "swarm" ∧
        info.get agent.MemberTagKeyNodeRole =
          some (if dockerInfo.Swarm.ControlAvailable then agent.NodeRoleManager
                else agent.NodeRoleWorker)) ∧
      (info.get agent.MemberTagEngineStatus = some "standalone" ∨
        info.get agent.MemberTagEngineStatus = some "swarm") ∧
      (∀ role : String, info.get agent.MemberTagKeyNodeRole = some role →
        role = agent.NodeRoleManager ∨ role = agent.NodeRoleWorker) := by
  have hk := hkeys
  obtain ⟨h12, h13, h23⟩ := hk
  refine ⟨InfoService.buildInfo agent dockerInfo, ?_, InfoService.buildInfo_nodup _ _, ?_⟩
  · rw [InfoService.GetInformationFromDockerEngine_ok agent engine dockerInfo hcli hinfo]
  by_cases hnode : dockerInfo.Swarm.NodeID = ""
  · rw [InfoService.buildInfo_standalone agent dockerInfo hkeys hnode]
    refine ⟨?_, ?_, ?_, ?_, ?_⟩
    · intro k hget
      by_cases hk1 : agent.MemberTagKeyNodeName = k
      · exact Or.inl hk1.symm
      · by_cases hk2 : agent.MemberTagEngineStatus = k
        · exact Or.inr (Or.inl hk2.symm)
        · simp [GoMap.get, hk1, hk2] at hget
    · intro _
      simp [GoMap.get, GoMap.len, h12, h13, h23]
    · intro h
      exact absurd hnode h
    · simp [GoMap.get, h12]
    · intro role
      simp [GoMap.get, h13, h23]
  · rw [InfoService.buildInfo_swarm agent dockerInfo hkeys hnode]
    refine ⟨?_, ?_, ?_, ?_, ?_⟩
    · intro k hget
      by_cases hk1 : agent.MemberTagKeyNodeName = k
      · exact Or.inl hk1.symm
      · by_cases hk2 : agent.MemberTagEngineStatus = k
        · exact Or.inr (Or.inl hk2.symm)
        · by_cases hk3 : agent.MemberTagKeyNodeRole = k
          · exact Or.inr (Or.inr hk3.symm)
          · simp [GoMap.get, hk1, hk2, hk3] at hget
    · intro h
      exact absurd h hnode
    · intro _
      simp [GoMap.get, GoMap.len, h12, h13, h23]
    · simp [GoMap.get, h12]
    · intro role
      cases dockerInfo.Swarm.ControlAvailable <;>
        simp [GoMap.get, h13, h23] <;> intro h <;> simp [h]

/-- Witness of C6: the two `node-7` scenarios with the spec's tag names, the
standalone daemon and the swarm manager. -/
theorem C6_exact_entries_witness :
    specAgent.DistinctKeys ∧
    (∃ info : GoMap,
      (InfoService.GetInformationFromDockerEngine specAgent
        (infoEngine ⟨"node-7", ⟨"", false⟩⟩)).value = some info ∧
      info.len = 2 ∧
      info.get "node-name" = some "node-7" ∧
      info.get "engine-status" = some "standalone" ∧
      info.get "node-role" = none) ∧
    (∃ info : GoMap,
      (InfoService.GetInformationFromDockerEngine specAgent
        (infoEngine ⟨"node-7", ⟨"abc123", true⟩⟩)).value = some info ∧
      info.len = 3 ∧
      info.get "node-name" = some "node-7" ∧
      info.get "engine-status" = some "swarm" ∧
      info.get "node-role" = some "manager") := by
  refine ⟨by decide, ?_, ?_⟩
  · obtain ⟨info, hvalue, _, _, hstandalone, _, _, _⟩ :=
      C6_exact_entries specAgent (infoEngine ⟨"node-7", ⟨"", false⟩⟩)
        ⟨"node-7", ⟨"", false⟩⟩ (by decide) rfl rfl
    exact ⟨info, hvalue, hstandalone rfl⟩
  · obtain ⟨info, hvalue, _, _, _, hswarm, _, _⟩ :=
      C6_exact_entries specAgent (infoEngine ⟨"node-7", ⟨"abc123", true⟩⟩)
        ⟨"node-7", ⟨"abc123", true⟩⟩ (by decide) rfl rfl
    exact ⟨info, hvalue, hswarm (by decide)⟩

/-- C7: whatever client creation and the info query answer, the method returns
either a nil map with a non-nil error, or a nil error with a map in which the
node-name and engine-status keys are present and, when the node is a swarm
member, the node-role key too.  It returns an error exactly when client creation
or the info query fails, and the error is then the one of the failing call. -/
theorem C7_error_or_full_map (agent : Agent) (engine : Engine) :
    (((InfoService.GetInformationFromDockerEngine agent engine).value = none ∧
        (InfoService.GetInformationFromDockerEngine agent engine).err ≠ none) ∨
      ((InfoService.GetInformationFromDockerEngine agent engine).err = none ∧
        ∃ info : GoMap,
          (InfoService.GetInformationFromDockerEngine agent engine).value = some info ∧
          info.get agent.MemberTagKeyNodeName ≠ none ∧
          info.get agent.MemberTagEngineStatus ≠ none ∧
          (engine.Info.1.Swarm.NodeID ≠ "" →
            info.get agent.MemberTagKeyNodeRole ≠ none))) ∧
    ((InfoService.GetInformationFromDockerEngine agent engine).err ≠ none ↔
      (engine.NewClientWithOpts ≠ none ∨ engine.Info.2 ≠ none)) ∧
    ((InfoService.GetInformationFromDockerEngine agent engine).err =
      match engine.NewClientWithOpts with
      | some err => some err
      | none => engine.Info.2) := by
  cases hcli : engine.NewClientWithOpts with
  | some err =>
    simp [InfoService.GetInformationFromDockerEngine, hcli]
  | none =>
    rcases hinfo : engine.Info with ⟨dockerInfo, _ | err⟩
    · rw [InfoService.GetInformationFromDockerEngine_ok agent engine dockerInfo hcli hinfo]
      refine ⟨Or.inr ⟨rfl, _, rfl, ?_, ?_, ?_⟩, by simp, rfl⟩
      · exact InfoService.buildInfo_get_name agent dockerInfo
      · exact InfoService.buildInfo_get_status agent dockerInfo
      · exact InfoService.buildInfo_get_role agent dockerInfo
    · simp [InfoService.GetInformationFromDockerEngine, hcli, hinfo]

/-- C10: two daemon-info responses with the same `Name` and both with an empty
`Swarm.NodeID`, whatever their `Swarm.ControlAvailable`, give equal maps (and
equal errors and calls). -/
theorem C10_control_flag_unread_when_standalone (agent : Agent) (engine₁ engine₂ : Engine)
    (info₁ info₂ : Info)
    (hcli₁ : engine₁.NewClientWithOpts = none)
    (hcli₂ : engine₂.NewClientWithOpts = none)
    (hinfo₁ : engine₁.Info = (info₁, none))
    (hinfo₂ : engine₂.Info = (info₂, none))
    (hname : info₁.Name = info₂.Name)
    (hnode₁ : info₁.Swarm.NodeID = "")
    (hnode₂ : info₂.Swarm.NodeID = "") :
    InfoService.GetInformationFromDockerEngine agent engine₁ =
      InfoService.GetInformationFromDockerEngine agent engine₂ := by
  rw [InfoService.GetInformationFromDockerEngine_ok agent engine₁ info₁ hcli₁ hinfo₁,
    InfoService.GetInformationFromDockerEngine_ok agent engine₂ info₂ hcli₂ hinfo₂]
  simp [InfoService.buildInfo, hname, hnode₁, hnode₂]

/-- Witness of C10: the standalone daemon `node-7` with the control flag unset
and set. -/
theorem C10_control_flag_unread_when_standalone_witness :
    (⟨"node-7", ⟨"", false⟩⟩ : Info) ≠ ⟨"node-7", ⟨"", true⟩⟩ ∧
    InfoService.GetInformationFromDockerEngine specAgent (infoEngine ⟨"node-7", ⟨"", false⟩⟩) =
      InfoService.GetInformationFromDockerEngine specAgent (infoEngine ⟨"node-7", ⟨"", true⟩⟩) :=
  ⟨by decide,
    C10_control_flag_unread_when_standalone specAgent
      (infoEngine ⟨"node-7", ⟨"", false⟩⟩) (infoEngine ⟨"node-7", ⟨"", true⟩⟩)
      ⟨"node-7", ⟨"", false⟩⟩ ⟨"node-7", ⟨"", true⟩⟩ rfl rfl rfl rfl rfl rfl rfl⟩

/-! ## The address of `GetContainerIpFromDockerEngine` -/

/-- C3: when client creation and the inspection succeed and some attachment has
a non-empty `IPAddress`, the method returns, with a nil error, the `IPAddress` of
the first attachment in iteration order whose `IPAddress` is non-empty; the
returned string is non-empty and is the address of an attachment. -/
theorem C3_first_nonempty_address (agent : Agent) (engine : Engine) (containerName : String)
    (containerInspect : ContainerJSON)
    (hcli : engine.NewClientWithOpts = none)
    (hinspect : engine.ContainerInspect containerName = (containerInspect, none))
    (hex : ∃ n ∈ containerInspect.NetworkSettings.Networks, n.2.IPAddress ≠ "") :
    ∃ pre n post,
      containerInspect.NetworkSettings.Networks = pre ++ n :: post ∧
      (∀ m ∈ pre, m.2.IPAddress = "") ∧
      n.2.IPAddress ≠ "" ∧
      (InfoService.GetContainerIpFromDockerEngine agent engine containerName).err = none ∧
      (InfoService.GetContainerIpFromDockerEngine agent engine containerName).value =
        n.2.IPAddress ∧
      (InfoService.GetContainerIpFromDockerEngine agent engine containerName).value ≠ "" ∧
      ∃ m ∈ containerInspect.NetworkSettings.Networks,
        m.2.IPAddress =
          (InfoService.GetContainerIpFromDockerEngine agent engine containerName).value := by
  obtain ⟨pre, n, post, hsplit, hpre, hn⟩ :=
    first_nonempty_split containerInspect.NetworkSettings.Networks hex
  have hrun := InfoService.GetContainerIpFromDockerEngine_ok agent engine containerName
    containerInspect hcli hinspect
  have hloop := InfoService.rangeNetworks_first
    containerInspect.NetworkSettings.Networks.length pre post n hpre hn
  rw [← hsplit] at hloop
  rw [hloop] at hrun
  simp only [] at hrun
  refine ⟨pre, n, post, hsplit, hpre, hn, ?_, ?_, ?_, n, ?_, ?_⟩
  · rw [hrun]
  · rw [hrun]
  · rw [hrun]; exact hn
  · rw [hsplit]; simp
  · rw [hrun]

/-- Witness of C3: the attachments `bridge` (no address) and `overlay`
(`10.0.0.5`), in that order, give `10.0.0.5`. -/
theorem C3_first_nonempty_address_witness :
    (InfoService.GetContainerIpFromDockerEngine specAgent
      (inspectEngine [("bridge", ⟨""⟩), ("overlay", ⟨"10.0.0.5"⟩)]) "agent").value = "10.0.0.5" ∧
    ∃ pre n post,
      [("bridge", (⟨""⟩ : EndpointSettings)), ("overlay", ⟨"10.0.0.5"⟩)] = pre ++ n :: post ∧
      (∀ m ∈ pre, m.2.IPAddress = "") ∧
      n.2.IPAddress ≠ "" ∧
      (InfoService.GetContainerIpFromDockerEngine specAgent
        (inspectEngine [("bridge", ⟨""⟩), ("overlay", ⟨"10.0.0.5"⟩)]) "agent").err = none ∧
      (InfoService.GetContainerIpFromDockerEngine specAgent
        (inspectEngine [("bridge", ⟨""⟩), ("overlay", ⟨"10.0.0.5"⟩)]) "agent").value =
          n.2.IPAddress ∧
      (InfoService.GetContainerIpFromDockerEngine specAgent
        (inspectEngine [("bridge", ⟨""⟩), ("overlay", ⟨"10.0.0.5"⟩)]) "agent").value ≠ "" ∧
      ∃ m ∈ [("bridge", (⟨""⟩ : EndpointSettings)), ("overlay", ⟨"10.0.0.5"⟩)],
        m.2.IPAddress =
          (InfoService.GetContainerIpFromDockerEngine specAgent
            (inspectEngine [("bridge", ⟨""⟩), ("overlay", ⟨"10.0.0.5"⟩)]) "agent").value :=
  ⟨by decide,
    C3_first_nonempty_address specAgent
      (inspectEngine [("bridge", ⟨""⟩), ("overlay", ⟨"10.0.0.5"⟩)]) "agent"
      ⟨⟨[("bridge", ⟨""⟩), ("overlay", ⟨"10.0.0.5"⟩)]⟩⟩ rfl rfl
      ⟨("overlay", ⟨"10.0.0.5"⟩), by simp, by decide⟩⟩

/-- C4: when client creation and the inspection succeed, the method fails with
the no-address error exactly when every attachment has an empty `IPAddress`
(also when there is no attachment), and it then returns the empty string; and
on every input, a nil error comes with a non-empty address. -/
theorem C4_no_address_iff_all_empty (agent : Agent) (engine : Engine) (containerName : String) :
    (∀ containerInspect : ContainerJSON,
      engine.NewClientWithOpts = none →
      engine.ContainerInspect containerName = (containerInspect, none) →
      (((InfoService.GetContainerIpFromDockerEngine agent engine containerName).err =
            some noAddressError ↔
          ∀ n ∈ containerInspect.NetworkSettings.Networks, n.2.IPAddress = "") ∧
        ((InfoService.GetContainerIpFromDockerEngine agent engine containerName).err =
            some noAddressError →
          (InfoService.GetContainerIpFromDockerEngine agent engine containerName).value = ""))) ∧
    ((InfoService.GetContainerIpFromDockerEngine agent engine containerName).err = none →
      (InfoService.GetContainerIpFromDockerEngine agent engine containerName).value ≠ "") := by
  constructor
  · intro containerInspect hcli hinspect
    rw [InfoService.GetContainerIpFromDockerEngine_ok agent engine containerName
      containerInspect hcli hinspect]
    cases hloop : InfoService.rangeNetworks containerInspect.NetworkSettings.Networks.length
        containerInspect.NetworkSettings.Networks with
    | none =>
      have hall := (InfoService.rangeNetworks_eq_none_iff _ _).1 hloop
      simp only [true_iff, implies_true, and_true]
      exact hall
    | some found =>
      obtain ⟨ipAddress, logCall⟩ := found
      have hnot : ¬ ∀ n ∈ containerInspect.NetworkSettings.Networks, n.2.IPAddress = "" := by
        intro hall
        rw [(InfoService.rangeNetworks_eq_none_iff _ _).2 hall] at hloop
        exact Option.noConfusion hloop
      simp only [reduceCtorEq, false_iff, false_implies, and_true]
      exact hnot
  · cases hcli : engine.NewClientWithOpts with
    | some err => simp [InfoService.GetContainerIpFromDockerEngine, hcli]
    | none =>
      rcases hinspect : engine.ContainerInspect containerName with ⟨containerInspect, _ | err⟩
      · rw [InfoService.GetContainerIpFromDockerEngine_ok agent engine containerName
          containerInspect hcli hinspect]
        cases hloop : InfoService.rangeNetworks containerInspect.NetworkSettings.Networks.length
            containerInspect.NetworkSettings.Networks with
        | none => simp
        | some found =>
          obtain ⟨ipAddress, logCall⟩ := found
          intro _
          exact (InfoService.rangeNetworks_some _ _ _ _ hloop).1
      · simp [InfoService.GetContainerIpFromDockerEngine, hcli, hinspect]

/-- Witness of C4: a container whose only attachment, `isolated`, has no address
gets the no-address error. -/
theorem C4_no_address_iff_all_empty_witness :
    (InfoService.GetContainerIpFromDockerEngine specAgent
      (inspectEngine [("isolated", ⟨""⟩)]) "agent").err = some noAddressError ∧
    (InfoService.GetContainerIpFromDockerEngine specAgent
      (inspectEngine [("isolated", ⟨""⟩)]) "agent").value = "" :=
  have h := (C4_no_address_iff_all_empty specAgent
    (inspectEngine [("isolated", ⟨""⟩)]) "agent").1 ⟨⟨[("isolated", ⟨""⟩)]⟩⟩ rfl rfl
  have herr := h.1.2 (by simp)
  ⟨herr, h.2 herr⟩

/-- C9: the doc comment of lines 45-47 says the method returns the first IP of
the first network found.  On the attachments `bridge` (no address) and `overlay`
(`10.0.0.5`), visited in that order, the inspection succeeds and reports a
network, the first attachment visited has the address `""`, and the method
returns `10.0.0.5` with a nil error: the address of the second attachment, not
of the first. -/
theorem C9_first_attachment_skipped :
    (inspectEngine [("bridge", ⟨""⟩), ("overlay", ⟨"10.0.0.5"⟩)]).NewClientWithOpts = none ∧
    ((inspectEngine [("bridge", ⟨""⟩), ("overlay", ⟨"10.0.0.5"⟩)]).ContainerInspect "agent").2
      = none ∧
    (((inspectEngine [("bridge", ⟨""⟩), ("overlay", ⟨"10.0.0.5"⟩)]).ContainerInspect
      "agent").1.NetworkSettings.Networks.head?).map (fun n => n.2.IPAddress) = some "" ∧
    (InfoService.GetContainerIpFromDockerEngine specAgent
      (inspectEngine [("bridge", ⟨""⟩), ("overlay", ⟨"10.0.0.5"⟩)]) "agent").err = none ∧
    (InfoService.GetContainerIpFromDockerEngine specAgent
      (inspectEngine [("bridge", ⟨""⟩), ("overlay", ⟨"10.0.0.5"⟩)]) "agent").value
        = "10.0.0.5" ∧
    some (InfoService.GetContainerIpFromDockerEngine specAgent
      (inspectEngine [("bridge", ⟨""⟩), ("overlay", ⟨"10.0.0.5"⟩)]) "agent").value ≠
      (((inspectEngine [("bridge", ⟨""⟩), ("overlay", ⟨"10.0.0.5"⟩)]).ContainerInspect
        "agent").1.NetworkSettings.Networks.head?).map (fun n => n.2.IPAddress) := by
  refine ⟨rfl, rfl, rfl, ?_, ?_, ?_⟩ <;> decide

/-! ## Calls to the client library -/

/-- C8: in both methods, when client creation fails the method returns that
failure after its one client-creation attempt and issues no `Info` or
`ContainerInspect` query; and on every engine each method attempts client
creation once and issues its query at most once. -/
theorem C8_single_attempt_no_retry (agent : Agent) (engine : Engine) (containerName : String) :
    (∀ err : GoError, engine.NewClientWithOpts = some err →
      (InfoService.GetInformationFromDockerEngine agent engine).err = some err ∧
      (InfoService.GetInformationFromDockerEngine agent engine).value = none ∧
      (InfoService.GetInformationFromDockerEngine agent engine).calls =
        [Call.NewClientWithOpts agent.SupportedDockerAPIVersion] ∧
      countQueries (InfoService.GetInformationFromDockerEngine agent engine).calls = 0 ∧
      (InfoService.GetContainerIpFromDockerEngine agent engine containerName).err = some err ∧
      (InfoService.GetContainerIpFromDockerEngine agent engine containerName).value = "" ∧
      (InfoService.GetContainerIpFromDockerEngine agent engine containerName).calls =
        [Call.NewClientWithOpts agent.SupportedDockerAPIVersion] ∧
      countQueries
        (InfoService.GetContainerIpFromDockerEngine agent engine containerName).calls = 0) ∧
    countNewClient (InfoService.GetInformationFromDockerEngine agent engine).calls = 1 ∧
    countQueries (InfoService.GetInformationFromDockerEngine agent engine).calls ≤ 1 ∧
    countNewClient
      (InfoService.GetContainerIpFromDockerEngine agent engine containerName).calls = 1 ∧
    countQueries
      (InfoService.GetContainerIpFromDockerEngine agent engine containerName).calls ≤ 1 := by
  cases hcli : engine.NewClientWithOpts with
  | some failure =>
    simp [InfoService.GetInformationFromDockerEngine,
      InfoService.GetContainerIpFromDockerEngine, hcli, countNewClient, countQueries]
  | none =>
    refine ⟨fun err h => Option.noConfusion h, ?_, ?_, ?_, ?_⟩
    · rcases hinfo : engine.Info with ⟨dockerInfo, _ | err⟩ <;>
        simp [InfoService.GetInformationFromDockerEngine, hcli, hinfo, countNewClient]
    · rcases hinfo : engine.Info with ⟨dockerInfo, _ | err⟩ <;>
        simp [InfoService.GetInformationFromDockerEngine, hcli, hinfo, countQueries]
    · rcases hinspect : engine.ContainerInspect containerName with ⟨containerInspect, _ | err⟩
      · rw [InfoService.GetContainerIpFromDockerEngine_ok agent engine containerName
          containerInspect hcli hinspect]
        cases hloop : InfoService.rangeNetworks containerInspect.NetworkSettings.Networks.length
            containerInspect.NetworkSettings.Networks with
        | none => simp [countNewClient]
        | some found =>
          obtain ⟨ipAddress, logCall⟩ := found
          obtain ⟨_, hcall⟩ := InfoService.rangeNetworks_some _ _ _ _ hloop
          subst hcall
          simp [countNewClient]
      · simp [InfoService.GetContainerIpFromDockerEngine, hcli, hinspect, countNewClient]
    · rcases hinspect : engine.ContainerInspect containerName with ⟨containerInspect, _ | err⟩
      · rw [InfoService.GetContainerIpFromDockerEngine_ok agent engine containerName
          containerInspect hcli hinspect]
        cases hloop : InfoService.rangeNetworks containerInspect.NetworkSettings.Networks.length
            containerInspect.NetworkSettings.Networks with
        | none => simp [countQueries]
        | some found =>
          obtain ⟨ipAddress, logCall⟩ := found
          obtain ⟨_, hcall⟩ := InfoService.rangeNetworks_some _ _ _ _ hloop
          subst hcall
          simp [countQueries]
      · simp [InfoService.GetContainerIpFromDockerEngine, hcli, hinspect, countQueries]

/-- Witness of C8: an engine on which client creation fails with
`cannot connect to the Docker daemon`. -/
theorem C8_single_attempt_no_retry_witness :
    (unreachableEngine ⟨"cannot connect to the Docker daemon"⟩).NewClientWithOpts =
      some ⟨"cannot connect to the Docker daemon"⟩ ∧
    (InfoService.GetInformationFromDockerEngine specAgent
      (unreachableEngine ⟨"cannot connect to the Docker daemon"⟩)).err =
        some ⟨"cannot connect to the Docker daemon"⟩ ∧
    (InfoService.GetInformationFromDockerEngine specAgent
      (unreachableEngine ⟨"cannot connect to the Docker daemon"⟩)).calls =
        [Call.NewClientWithOpts specAgent.SupportedDockerAPIVersion] ∧
    (InfoService.GetContainerIpFromDockerEngine specAgent
      (unreachableEngine ⟨"cannot connect to the Docker daemon"⟩) "agent").err =
        some ⟨"cannot connect to the Docker daemon"⟩ ∧
    (InfoService.GetContainerIpFromDockerEngine specAgent
      (unreachableEngine ⟨"cannot connect to the Docker daemon"⟩) "agent").calls =
        [Call.NewClientWithOpts specAgent.SupportedDockerAPIVersion] :=
  have h := (C8_single_attempt_no_retry specAgent
    (unreachableEngine ⟨"cannot connect to the Docker daemon"⟩) "agent").1
    ⟨"cannot connect to the Docker daemon"⟩ rfl
  ⟨rfl, h.1, h.2.2.1, h.2.2.2.2.1, h.2.2.2.2.2.2.1⟩

end docker
